import Mathlib

set_option maxRecDepth 100000

/-!
Verification of the voice-gateway real-time session bridge
(`voice-gateway/src/server.ts`, `voice-gateway/src/tools/fileTool.ts`,
`openai_realtime_experiment/voice-gateway/src/tools/scriptTool.ts`).

The TypeScript handlers are shallowly embedded as pure Lean functions.
External collaborators (the upstream speech-model signaling endpoint, the
FileOps and ScriptCatalog backends, the HMAC primitive) are passed in as
function parameters, so each handler is a total function of its request
and of the behavior of its collaborators.  Thrown JavaScript exceptions
are modelled with `Except.error`; returned values with `Except.ok` or a
plain record.
-/

/-! ## HTTP-level data -/

/-- The observable behavior of one upstream `fetch` call: the HTTP status
and the response body text. -/
structure UpstreamResp where
  status : Nat
  body : String
deriving DecidableEq

/-- `Response.ok` of the fetch API: status in the range 200..299. -/
def fetchOk (r : UpstreamResp) : Bool :=
  200 ≤ r.status && r.status ≤ 299

/-- The response produced by the SDP relay route, together with the offer
text forwarded upstream (`none` when no upstream call was made). -/
structure RelayResponse where
  status : Nat
  body : String
  contentType : Option String
  upstreamCalledWith : Option String
deriving DecidableEq

/-- Embedding of the `POST /realtime/sdp` handler of `server.ts`.
`upstream` is the speech-model signaling endpoint (the `fetch` to the
realtime API); `reqBodySdp` is the `sdp` field of the parsed request body
(`req.body?.sdp`, `none` when absent).  The source reads
`String(req.body?.sdp || "")`, rejects with 400 when it is empty, rejects
with 500 when `OPENAI_API_KEY` is empty, otherwise forwards the offer as
the upstream request body; on `!rtResp.ok` it answers with the upstream
status and body, and otherwise sends the upstream body with content type
`application/sdp` (and the framework-default 200 status). -/
def realtimeSdpHandler (apiKey : String) (upstream : String → UpstreamResp)
    (reqBodySdp : Option String) : RelayResponse :=
  let sdpOffer := reqBodySdp.getD ""
  if sdpOffer = "" then
    ⟨400, "\x7b\"error\":\"Missing SDP\"\x7d", some "application/json", none⟩
  else if apiKey = "" then
    ⟨500, "\x7b\"error\":\"Server missing OPENAI_API_KEY\"\x7d", some "application/json", none⟩
  else
    let r := upstream sdpOffer
    if fetchOk r then ⟨200, r.body, some "application/sdp", some sdpOffer⟩
    else ⟨r.status, r.body, none, some sdpOffer⟩

/-! ## Twilio webhook: signature validation and the voice handler -/

/-- Insert a key into a lexicographically sorted list of keys
(embedding of the effect of JavaScript `Array.prototype.sort()` on the
parameter keys; both orders are lexicographic by code unit for the ASCII
form-parameter names involved). -/
def insertKeySorted (k : String) : List String → List String
  | [] => [k]
  | x :: xs => if k ≤ x then k :: x :: xs else x :: insertKeySorted k xs

/-- All parameter keys, sorted (`Object.keys(params).sort()`). -/
def sortedKeys (params : List (String × String)) : List String :=
  (params.map Prod.fst).foldr insertKeySorted []

/-- The exact string the webhook signature is computed over:
the public callback URL followed by each form parameter, sorted by key,
rendered as the key immediately followed by its value
(`url + Object.entries(sorted).map(([k, v]) => k + v).join("")`). -/
def twilioSigData (publicUrl : String) (params : List (String × String)) : String :=
  (publicUrl ++ "/twilio/voice")
    ++ String.join ((sortedKeys params).map (fun k => k ++ ((params.lookup k).getD "")))

/-- Node `crypto.timingSafeEqual` on the UTF-8 buffers of two strings:
it throws (modelled `Except.error`) when the lengths differ, and
otherwise reports byte equality in constant time. -/
def timingSafeEqualStr (a b : String) : Except Unit Bool :=
  if a.length = b.length then .ok (a == b) else .error ()

/-- Embedding of `validateTwilioRequest` from `server.ts`.  `hmacSha1B64`
stands for `crypto.createHmac("sha1", token).update(data).digest("base64")`
as a function of the token and the data.  `token` is the
`TWILIO_AUTH_TOKEN` environment value (`none` when unset); the JavaScript
guard `if (!token) return true` also fires on the empty string.
`signatureHeader` is the `X-Twilio-Signature` header. -/
def validateTwilioRequest (hmacSha1B64 : String → String → String)
    (token : Option String) (publicUrl : String)
    (signatureHeader : Option String) (params : List (String × String)) :
    Except Unit Bool :=
  match token with
  | none => .ok true
  | some t =>
    if t = "" then .ok true
    else
      let signature := signatureHeader.getD ""
      let computed := hmacSha1B64 t (twilioSigData publicUrl params)
      timingSafeEqualStr signature computed

/-! ## The TwiML response of `POST /twilio/voice` -/

/-- First occurrence test: does `pat` occur at the head of the list? -/
def matchesAt (pat l : List Char) : Bool :=
  match pat, l with
  | [], _ => true
  | _ :: _, [] => false
  | p :: ps, c :: cs => p == c && matchesAt ps cs

/-- Replace the first occurrence of `pat` by `rep`
(JavaScript `String.prototype.replace` with a string pattern replaces
only the first occurrence, scanning left to right). -/
def replaceFirstL (pat rep : List Char) : List Char → List Char
  | [] => []
  | c :: cs =>
    if matchesAt pat (c :: cs) then rep ++ List.drop pat.length (c :: cs)
    else c :: replaceFirstL pat rep cs

/-- `s.replace(pat, rep)` for string patterns. -/
def jsReplaceFirst (s pat rep : String) : String :=
  ⟨replaceFirstL pat.data rep.data s.data⟩

/-- The media-stream URL built by the `/twilio/voice` handler:
`PUBLIC_URL.replace("http", "ws") + "/twilio/stream"`. -/
def wsUrl (publicUrl : String) : String :=
  jsReplaceFirst publicUrl "http" "ws" ++ "/twilio/stream"

/-- The TwiML template text before the interpolated stream URL. -/
def twimlPre : String :=
  "<?xml version=\"1.0\" encoding=\"UTF-8\"?>\n    <Response>\n      <Say>Connecting you to the assistant.</Say>\n      <Start>\n        <Stream url=\""

/-- The TwiML template text after the interpolated stream URL. -/
def twimlPost : String :=
  "\" />\n      </Start>\n      <Pause length=\"60\" />\n    </Response>"

/-- The exact TwiML document the handler sends, with the stream URL
interpolated into the template literal. -/
def twimlVoice (publicUrl : String) : String :=
  twimlPre ++ wsUrl publicUrl ++ twimlPost

/-- A plain HTTP response: status, content type, body. -/
structure HttpResponse where
  status : Nat
  contentType : Option String
  body : String
deriving DecidableEq

/-- The request data available to the `/twilio/voice` handler: the
`X-Twilio-Signature` header and the parsed form parameters. -/
structure TwilioVoiceRequest where
  signatureHeader : Option String
  params : List (String × String)

/-- Embedding of the `POST /twilio/voice` handler of `server.ts`.  The
call to `validateTwilioRequest` is commented out in the source, and the
handler reads nothing from the request: it always sends the TwiML
template (with `res.type("text/xml")`, default status 200). -/
def twilioVoiceHandler (publicUrl : String) (_req : TwilioVoiceRequest) :
    HttpResponse :=
  ⟨200, some "text/xml", twimlVoice publicUrl⟩

/-! ## Tool accessors: fileTool.ts and scriptTool.ts -/

/-- Result of a `fetch` against one of the localhost accessor backends:
either the decoded success payload, or a failure with the HTTP status and
the stringified JSON error body (`JSON.stringify` of
`await res.json().catch(() => ({}))`). -/
inductive FetchResult (α : Type) where
  | success : α → FetchResult α
  | failure : Nat → String → FetchResult α
deriving DecidableEq

/-- Argument payload of the `file_operation` tool
(`FileOperationArgs` in `fileTool.ts`). -/
structure FileOperationArgs where
  operation : String
  filename : Option String
  content : Option String
  line_number : Option Nat
  pattern : Option String
  replacement : Option String
deriving DecidableEq

/-- Embedding of `fileOperationTool` from `fileTool.ts`: it posts the
arguments to the FileOps accessor and, when the response is not ok,
THROWS `new Error("file_operation failed: " + status + " " + errJson)`
(modelled as `Except.error`); otherwise it returns the decoded body. -/
def fileOperationTool (fileOpsFetch : FileOperationArgs → FetchResult String)
    (args : FileOperationArgs) : Except String String :=
  match fileOpsFetch args with
  | .failure status errBody =>
      .error ("file_operation failed: " ++ toString status ++ " " ++ errBody)
  | .success body => .ok body

/-- Embedding of the `file_operation` entry of the tool table built in the
`wss` connection handler of `server.ts`: unlike its siblings it has no
try/catch, it returns `await fileOperationTool(args)` directly, so an
accessor failure propagates as a thrown exception. -/
def fileOperationToolWrapper
    (fileOpsFetch : FileOperationArgs → FetchResult String)
    (args : FileOperationArgs) : Except String String :=
  fileOperationTool fileOpsFetch args

/-- One stage of a script (an entry of the `stages` array of `Script` in `scriptTool.ts`);
`questions` and `actions` are optional. -/
structure Stage where
  name : String
  prompt : String
  questions : Option (List String)
  actions : Option (List String)
deriving DecidableEq

/-- A script descriptor (`Script` in `scriptTool.ts`). -/
structure Script where
  name : String
  description : String
  stages : List Stage
  output_format : Option String
  interactive_elements : Option (List String)
deriving DecidableEq

/-- ASCII uppercasing, embedding `String.prototype.toUpperCase` on the
ASCII stage names used by the scripts. -/
def asciiUpper (s : String) : String :=
  ⟨s.data.map Char.toUpper⟩

/-- JavaScript truthiness of an optional string: present and nonempty. -/
def jsTruthyStr (o : Option String) : Bool :=
  (o.getD "") ≠ ""

/-- Truthiness of `xs && xs.length > 0` for an optional list. -/
def jsTruthyList (o : Option (List String)) : Bool :=
  match o with
  | none => false
  | some l => l.length > 0

/-- The per-stage text appended by the `forEach` body of
`generateScriptInstructions`: the numbered stage line, then the optional
key-questions line, then the optional available-actions line. -/
def stageBlock (idx : Nat) (st : Stage) : String :=
  (toString (idx + 1) ++ ". **" ++ asciiUpper st.name ++ "**: " ++ st.prompt ++ "\n")
    ++ (if jsTruthyList st.questions then
          "   - Key questions: " ++ String.intercalate ", " ((st.questions).getD []) ++ "\n"
        else "")
    ++ (if jsTruthyList st.actions then
          "   - Available actions: " ++ String.intercalate ", " ((st.actions).getD []) ++ "\n"
        else "")

/-- The stage section of the instructions: `forEach` over the stages with
a running index, each iteration appending its `stageBlock`. -/
def stagesText (idx : Nat) : List Stage → String
  | [] => ""
  | st :: rest => stageBlock idx st ++ stagesText (idx + 1) rest

/-- The fixed execution-guidelines tail of the instructions. -/
def scriptGuidelines : String :=
  "\n### 🎯 SCRIPT EXECUTION GUIDELINES:\n"
    ++ "- **YOU ARE NOW FOLLOWING THIS SCRIPT**: Use this as your primary guidance for the conversation\n"
    ++ "- **STAGE-BY-STAGE APPROACH**: Guide the user through each stage naturally and conversationally\n"
    ++ "- **DON\x27T RUSH**: Let the user explore and engage with each stage fully\n"
    ++ "- **ADAPT WHEN NEEDED**: Use the script as a framework, but adapt to the user\x27s needs and interests\n"
    ++ "- **CAPTURE CONTENT**: Save important content in markdown files as you progress\n"
    ++ "- **STAY ENCOURAGING**: Be supportive and positive throughout the process\n"
    ++ "- **CURRENT STAGE**: Start with the first stage and progress naturally\n"
    ++ "\n### 💡 IMPORTANT: This script is now your primary behavior guide. Follow its structure and prompts to help the user achieve their goals.\n"

/-- Embedding of `generateScriptInstructions` from `scriptTool.ts`: a
pure function of the script descriptor alone. -/
def generateScriptInstructions (s : Script) : String :=
  ("\n\n## 🎯 ACTIVE SCRIPT: " ++ s.name ++ "\n\n" ++ s.description ++ "\n\n")
    ++ "### 📋 SCRIPT STRUCTURE:\n"
    ++ stagesText 0 s.stages
    ++ (if jsTruthyStr s.output_format then
          "\n### 📄 OUTPUT FORMAT: " ++ (s.output_format.getD "") ++ "\n"
        else "")
    ++ (if jsTruthyList s.interactive_elements then
          "\n### 🎮 INTERACTIVE ELEMENTS: "
            ++ String.intercalate ", " ((s.interactive_elements).getD []) ++ "\n"
        else "")
    ++ scriptGuidelines

/-- Embedding of `scriptLoadTool` from `scriptTool.ts`: it fetches the
script named `name` from the ScriptCatalog accessor; on a non-ok response
it THROWS `Failed to load script <name>: <status> <errJson>` (modelled
`Except.error`), and on success it returns the fetched descriptor
together with instructions generated from that descriptor on this call. -/
def scriptLoadTool (catalogFetch : String → FetchResult Script)
    (name : String) : Except String (Script × String) :=
  match catalogFetch name with
  | .failure status errBody =>
      .error ("Failed to load script \x27" ++ name ++ "\x27: "
        ++ toString status ++ " " ++ errBody)
  | .success script => .ok (script, generateScriptInstructions script)

/-- The value returned by the `get_script_info` tool handler in
`server.ts`: a success flag with either the script and guidance or the
error message of the caught exception. -/
structure ScriptToolResult where
  success : Bool
  script : Option Script
  guidance : Option String
  error : Option String
deriving DecidableEq

/-- Embedding of the `get_script_info` entry of the tool table in
`server.ts`: it awaits `scriptLoadTool`, wraps a success as
`{success: true, script, guidance}` and catches any exception as
`{success: false, error: message}`. -/
def getScriptInfoToolWrapper (catalogFetch : String → FetchResult Script)
    (name : String) : ScriptToolResult :=
  match scriptLoadTool catalogFetch name with
  | .ok (script, instr) => ⟨true, some script, some instr, none⟩
  | .error msg => ⟨false, none, none, some msg⟩

/-! ## The session registry (`activeAgents`) -/

/-- State left by one run of the `wss.on("connection")` handler of
`server.ts`: the registry contents afterwards, and whether the handler
closed the websocket (it does exactly when `agent.connect()` rejects). -/
structure ConnectionOutcome where
  registry : List (String × Nat)
  wsClosed : Bool
deriving DecidableEq

/-- Embedding of the `wss.on("connection")` handler acting on the
`activeAgents` map: it inserts the freshly generated UUID with the new
agent (`activeAgents.set(crypto.randomUUID(), agent)`) and, when
`agent.connect()` rejects, closes the websocket.  Agents are represented
by opaque numeric handles.  Nothing in `server.ts` ever deletes from
`activeAgents`, and no close handler is registered on `ws`, so this
insertion is the only mutation of the registry. -/
def wssConnectionHandler (registry : List (String × Nat)) (uuid : String)
    (agent : Nat) (connectOk : Bool) : ConnectionOutcome :=
  ⟨(uuid, agent) :: registry, !connectOk⟩

/-- Embedding of the effect of a later transport disconnect on the
registry: `server.ts` registers no `close` handler that touches
`activeAgents`, so the registry is unchanged. -/
def onTransportClose (registry : List (String × Nat)) : List (String × Nat) :=
  registry

/-- Scratch example used while developing; kept as a sanity check. -/
example :
    realtimeSdpHandler "k" (fun s => ⟨200, "ans" ++ s⟩) (some "v=0") =
      ⟨200, "ansv=0", some "application/sdp", some "v=0"⟩ := by decide

/-! ## A well-formedness checker for the XML responses

A small one-pass scanner: text and tags alternate, a tag records only
what classification needs (its first character, its name up to the first
space, and the last character seen); at `>` the tag is classified as
prolog (`?...`), closing (`/name`, must match the innermost open tag),
self-closing (`.../`) or opening (pushed on the stack).  A `<` inside a
tag is malformed.  The document is well formed when the scan ends in text
mode with an empty stack and no error. -/

/-- What the scanner remembers about the tag being read. -/
structure TagInfo where
  first : Option Char
  name : List Char
  nameDone : Bool
  last : Option Char
deriving DecidableEq

/-- Extend the current tag with one more character. -/
def tagUpd (ti : TagInfo) (c : Char) : TagInfo :=
  ⟨(match ti.first with | none => some c | some a => some a),
   (if ti.nameDone || c == ' ' then ti.name else ti.name ++ [c]),
   (ti.nameDone || c == ' '),
   some c⟩

/-- Scanner mode: in running text, or inside a `<...>` tag. -/
inductive ScanMode where
  | text : ScanMode
  | tag : TagInfo → ScanMode
deriving DecidableEq

/-- Scanner state: mode, stack of open element names, error flag. -/
structure ScanState where
  mode : ScanMode
  stack : List (List Char)
  ok : Bool
deriving DecidableEq

/-- Classify a finished tag and update the element stack. -/
def closeTag (ti : TagInfo) (stack : List (List Char)) (ok : Bool) : ScanState :=
  match ti.first with
  | none => ⟨.text, stack, false⟩
  | some c =>
    if c = '?' then ⟨.text, stack, ok⟩
    else if c = '/' then
      match stack with
      | [] => ⟨.text, [], false⟩
      | top :: rest =>
        if top = ti.name.drop 1 then ⟨.text, rest, ok⟩
        else ⟨.text, rest, false⟩
    else if ti.last = some '/' then ⟨.text, stack, ok⟩
    else ⟨.text, ti.name :: stack, ok⟩

/-- One scanner step. -/
def scanStep (st : ScanState) (c : Char) : ScanState :=
  match st.mode with
  | .text => if c = '<' then ⟨.tag ⟨none, [], false, none⟩, st.stack, st.ok⟩ else st
  | .tag ti =>
    if c = '>' then closeTag ti st.stack st.ok
    else if c = '<' then ⟨.tag ti, st.stack, false⟩
    else ⟨.tag (tagUpd ti c), st.stack, st.ok⟩

/-- Acceptance condition of the scanner. -/
def xmlFinish (st : ScanState) : Bool :=
  st.ok && st.stack.isEmpty && decide (st.mode = ScanMode.text)

/-- The string parses as a balanced XML document. -/
def xmlBalanced (s : String) : Bool :=
  xmlFinish (s.data.foldl scanStep ⟨ScanMode.text, [], true⟩)

/-- Extending a name-complete tag only tracks the last character. -/
theorem tagUpd_done (a : Char) (n : List Char) (d : Option Char) (c : Char) :
    tagUpd ⟨some a, n, true, d⟩ c = ⟨some a, n, true, some c⟩ := by
  simp [tagUpd]

/-- Folding a name-complete tag over a list only tracks the last
character. -/
theorem foldl_tagUpd_done (l : List Char) :
    ∀ (a : Char) (n : List Char) (d : Option Char),
    List.foldl tagUpd ⟨some a, n, true, d⟩ l
      = ⟨some a, n, true, List.foldl (fun _ c => some c) d l⟩ := by
  induction l with
  | nil => intro a n d; rfl
  | cons c cs ih =>
    intro a n d
    rw [List.foldl_cons, tagUpd_done, List.foldl_cons]
    exact ih a n (some c)

/-- Scanning characters free of `<` and `>` inside a tag just extends the
tag. -/
theorem foldl_scan_tag (l : List Char) :
    ∀ (ti : TagInfo) (stk : List (List Char)) (ok : Bool),
    ('>' ∉ l) → ('<' ∉ l) →
    List.foldl scanStep ⟨ScanMode.tag ti, stk, ok⟩ l
      = ⟨ScanMode.tag (List.foldl tagUpd ti l), stk, ok⟩ := by
  induction l with
  | nil => intros; rfl
  | cons c cs ih =>
    intro ti stk ok hgt hlt
    have hc1 : ¬(c = '>') := fun h => hgt (by simp [h])
    have hc2 : ¬(c = '<') := fun h => hlt (by simp [h])
    have hgt' : '>' ∉ cs := fun h => hgt (List.mem_cons_of_mem _ h)
    have hlt' : '<' ∉ cs := fun h => hlt (List.mem_cons_of_mem _ h)
    rw [List.foldl_cons, List.foldl_cons]
    have hstep : scanStep ⟨ScanMode.tag ti, stk, ok⟩ c
        = ⟨ScanMode.tag (tagUpd ti c), stk, ok⟩ := by
      simp [scanStep, hc1, hc2]
    rw [hstep]
    exact ih (tagUpd ti c) stk ok hgt' hlt'

/-- The TwiML template is balanced for every interpolated stream URL free
of `<` and `>`. -/
theorem twiml_xmlBalanced (u : String)
    (hlt : '<' ∉ u.data) (hgt : '>' ∉ u.data) :
    xmlBalanced (twimlPre ++ u ++ twimlPost) = true := by
  unfold xmlBalanced
  rw [String.data_append, String.data_append, List.foldl_append, List.foldl_append]
  have hA : List.foldl scanStep ⟨ScanMode.text, [], true⟩ twimlPre.data
      = ⟨ScanMode.tag ⟨some 'S', "Stream".data, true, some '"'⟩,
         ["Start".data, "Response".data], true⟩ := by decide
  rw [hA, foldl_scan_tag u.data _ _ _ hgt hlt, foldl_tagUpd_done]
  have hpost : twimlPost.data = '"' :: ' ' :: '/' :: '>' ::
      ("\n      </Start>\n      <Pause length=\"60\" />\n    </Response>").data := by
    decide
  rw [hpost, List.foldl_cons, List.foldl_cons, List.foldl_cons, List.foldl_cons]
  have hstep3 :
      scanStep (scanStep (scanStep
        ⟨ScanMode.tag ⟨some 'S', "Stream".data, true,
            List.foldl (fun _ c => some c) (some '"') u.data⟩,
          ["Start".data, "Response".data], true⟩ '"') ' ') '/'
      = ⟨ScanMode.tag ⟨some 'S', "Stream".data, true, some '/'⟩,
         ["Start".data, "Response".data], true⟩ := by
    simp [scanStep, tagUpd_done]
  rw [hstep3]
  have hstep4 : scanStep ⟨ScanMode.tag ⟨some 'S', "Stream".data, true, some '/'⟩,
      ["Start".data, "Response".data], true⟩ '>'
      = ⟨ScanMode.text, ["Start".data, "Response".data], true⟩ := by decide
  rw [hstep4]
  have hB : List.foldl scanStep ⟨ScanMode.text, ["Start".data, "Response".data], true⟩
      ("\n      </Start>\n      <Pause length=\"60\" />\n    </Response>").data
      = ⟨ScanMode.text, [], true⟩ := by decide
  rw [hB]
  rfl

/-- Replacing the first `http` by `ws` turns an `http://` URL into the
matching `ws://` URL. -/
theorem wsUrl_http (h : String) :
    wsUrl ("http://" ++ h) = "ws://" ++ h ++ "/twilio/stream" := rfl

/-- Replacing the first `http` by `ws` turns an `https://` URL into the
matching `wss://` URL (only the first occurrence is replaced, inside the
`https` scheme). -/
theorem wsUrl_https (h : String) :
    wsUrl ("https://" ++ h) = "wss://" ++ h ++ "/twilio/stream" := rfl

/-- A character absent from the scheme, host and fixed path is absent
from the whole stream URL. -/
theorem not_mem_wsUrlData (c : Char) (scheme h : String)
    (hc1 : c ∉ scheme.data) (hc2 : c ∉ h.data)
    (hc3 : c ∉ ("/twilio/stream" : String).data) :
    c ∉ (scheme ++ h ++ "/twilio/stream").data := by
  rw [String.data_append, String.data_append]
  intro hm
  rcases List.mem_append.1 hm with hm1 | hm3
  · rcases List.mem_append.1 hm1 with hm1 | hm2
    · exact hc1 hm1
    · exact hc2 hm2
  · exact hc3 hm3

/-! ## Theorems about the SDP relay -/

/-- C3: the SDP relay answers 400 without calling upstream when the SDP
body is missing or empty, answers 500 without calling upstream when the
server credential is empty, and on a non-ok upstream response passes the
upstream status and body through to the caller unmodified. -/
theorem sdp_relay_error_paths (apiKey : String)
    (upstream : String → UpstreamResp) (reqBodySdp : Option String) :
    ((reqBodySdp.getD "" = "") →
      (realtimeSdpHandler apiKey upstream reqBodySdp).status = 400 ∧
      (realtimeSdpHandler apiKey upstream reqBodySdp).upstreamCalledWith = none)
    ∧ ((reqBodySdp.getD "" ≠ "") → apiKey = "" →
      (realtimeSdpHandler apiKey upstream reqBodySdp).status = 500 ∧
      (realtimeSdpHandler apiKey upstream reqBodySdp).upstreamCalledWith = none)
    ∧ ((reqBodySdp.getD "" ≠ "") → apiKey ≠ "" →
        fetchOk (upstream (reqBodySdp.getD "")) = false →
      (realtimeSdpHandler apiKey upstream reqBodySdp).status =
        (upstream (reqBodySdp.getD "")).status ∧
      (realtimeSdpHandler apiKey upstream reqBodySdp).body =
        (upstream (reqBodySdp.getD "")).body) := by
  refine ⟨fun h => ?_, fun h hk => ?_, fun h hk hup => ?_⟩
  · simp [realtimeSdpHandler, h]
  · simp [realtimeSdpHandler, h, hk]
  · simp [realtimeSdpHandler, h, hk, hup]

/-- Witness for `sdp_relay_error_paths`: each error branch evaluated at a
concrete input. -/
theorem sdp_relay_error_paths_witness :
    ((realtimeSdpHandler "key" (fun s => ⟨200, s⟩) none).status = 400 ∧
      (realtimeSdpHandler "key" (fun s => ⟨200, s⟩) none).upstreamCalledWith = none)
    ∧ ((realtimeSdpHandler "" (fun s => ⟨200, s⟩) (some "v=0")).status = 500 ∧
      (realtimeSdpHandler "" (fun s => ⟨200, s⟩) (some "v=0")).upstreamCalledWith = none)
    ∧ ((realtimeSdpHandler "key" (fun _ => ⟨502, "bad gateway"⟩) (some "v=0")).status = 502 ∧
      (realtimeSdpHandler "key" (fun _ => ⟨502, "bad gateway"⟩) (some "v=0")).body = "bad gateway") :=
  ⟨(sdp_relay_error_paths "key" (fun s => ⟨200, s⟩) none).1 (by decide),
   (sdp_relay_error_paths "" (fun s => ⟨200, s⟩) (some "v=0")).2.1 (by decide) rfl,
   by
     have h := (sdp_relay_error_paths "key" (fun _ => ⟨502, "bad gateway"⟩)
       (some "v=0")).2.2 (by decide) (by decide) (by decide)
     exact ⟨h.1, h.2⟩⟩

/-- A concrete upstream endpoint whose success status is 201. -/
def upstream201 : String → UpstreamResp := fun s => ⟨201, "answer " ++ s⟩

/-- C2 counterexample: with a valid offer and a 201 upstream answer, the
relay responds 200, not the upstream status — the status is not returned
verbatim on the success path (`res.send` uses the framework-default 200
there; only the failure branch copies `rtResp.status`). -/
theorem sdp_relay_status_not_verbatim_cex :
    (realtimeSdpHandler "key" upstream201 (some "v=0")).status = 200 ∧
    (upstream201 "v=0").status = 201 ∧
    ((realtimeSdpHandler "key" upstream201 (some "v=0")).status ==
      (upstream201 "v=0").status) = false := by
  refine ⟨rfl, rfl, ?_⟩
  decide

/-- C2 (amended): for every valid offer with the credential present, the
relay forwards the offer text verbatim upstream, returns the upstream
answer body verbatim, and returns the upstream status on a non-ok
response; on an ok response it responds 200. -/
theorem sdp_relay_body_verbatim (apiKey : String)
    (upstream : String → UpstreamResp) (sdp : String)
    (hs : sdp ≠ "") (hk : apiKey ≠ "") :
    (realtimeSdpHandler apiKey upstream (some sdp)).upstreamCalledWith = some sdp
    ∧ (realtimeSdpHandler apiKey upstream (some sdp)).body = (upstream sdp).body
    ∧ (realtimeSdpHandler apiKey upstream (some sdp)).status =
        (if fetchOk (upstream sdp) then 200 else (upstream sdp).status) := by
  cases h : fetchOk (upstream sdp) <;>
    simp [realtimeSdpHandler, hs, hk, h]

/-- Witness for `sdp_relay_body_verbatim` at a concrete offer and
upstream. -/
theorem sdp_relay_body_verbatim_witness :
    (realtimeSdpHandler "key" upstream201 (some "v=0")).upstreamCalledWith = some "v=0"
    ∧ (realtimeSdpHandler "key" upstream201 (some "v=0")).body = (upstream201 "v=0").body
    ∧ (realtimeSdpHandler "key" upstream201 (some "v=0")).status =
        (if fetchOk (upstream201 "v=0") then 200 else (upstream201 "v=0").status) :=
  sdp_relay_body_verbatim "key" upstream201 "v=0" (by decide) (by decide)

/-! ## Theorems about the tool handlers -/

/-- The `file_operation` arguments of a read of a nonexistent document. -/
def fileReadMissingArgs : FileOperationArgs :=
  ⟨"read", some "missing.md", none, none, none, none⟩

/-- A FileOps accessor that reports not-found (HTTP 404, empty JSON error
body) for every request. -/
def fileOpsNotFound : FileOperationArgs → FetchResult String :=
  fun _ => .failure 404 "\x7b\x7d"

/-- C1 divergence: reading a nonexistent document makes the
`file_operation` tool handler THROW (modelled `Except.error`) rather than
return a failure result: `fileOperationTool` throws on a non-ok accessor
response and, unlike the `get_script_info` and `list_available_scripts`
entries, the `file_operation` entry of the tool table has no try/catch,
so the exception escapes the tool handler. -/
theorem file_operation_read_missing_throws :
    fileOperationToolWrapper fileOpsNotFound fileReadMissingArgs =
      Except.error "file_operation failed: 404 \x7b\x7d" := rfl

/-- C5: when the catalog accessor fails for the requested name (as it
does with a 404 for a script the catalog does not contain), the
`get_script_info` tool returns a failure result whose error message
contains the requested script name, and no exception escapes. -/
theorem get_script_info_missing_script_failure
    (catalogFetch : String → FetchResult Script) (name : String)
    (status : Nat) (errBody : String)
    (hmiss : catalogFetch name = .failure status errBody) :
    (getScriptInfoToolWrapper catalogFetch name).success = false ∧
    ∃ pre post, (getScriptInfoToolWrapper catalogFetch name).error =
      some (pre ++ name ++ post) := by
  refine ⟨?_, "Failed to load script \x27",
    "\x27: " ++ toString status ++ " " ++ errBody, ?_⟩
  · simp [getScriptInfoToolWrapper, scriptLoadTool, hmiss]
  · simp [getScriptInfoToolWrapper, scriptLoadTool, hmiss, String.append_assoc]

/-- A catalog accessor with an empty catalog: not-found for every name. -/
def catalogEmpty : String → FetchResult Script :=
  fun _ => .failure 404 "\x7b\x7d"

/-- Witness for `get_script_info_missing_script_failure` at a concrete
unregistered name. -/
theorem get_script_info_missing_script_failure_witness :
    (getScriptInfoToolWrapper catalogEmpty "improv_game").success = false ∧
    ∃ pre post, (getScriptInfoToolWrapper catalogEmpty "improv_game").error =
      some (pre ++ "improv_game" ++ post) :=
  get_script_info_missing_script_failure catalogEmpty "improv_game" 404 "\x7b\x7d" rfl

/-! ## Theorems about the session registry -/

/-- C4 divergence: a connection whose model connection fails reaches its
terminal state (the handler closes the websocket), yet its entry is still
present in `activeAgents` afterwards, and a later transport disconnect
does not remove it either — `server.ts` contains no
`activeAgents.delete` and registers no close handler, so registry entries
outlive their transports. -/
theorem active_agents_entry_survives_teardown :
    (wssConnectionHandler [] "uuid-1" 7 false).wsClosed = true ∧
    (onTransportClose
      (wssConnectionHandler [] "uuid-1" 7 false).registry).lookup "uuid-1" = some 7 := by
  decide

/-! ## Theorems about the Twilio webhook -/

/-- C9: the TwiML response of `POST /twilio/voice` does not depend on the
request at all — in particular not on the `X-Twilio-Signature` header or
the form parameters — because the handler never invokes
`validateTwilioRequest` (the call is commented out in the source). -/
theorem twilio_voice_ignores_signature_and_params
    (publicUrl : String) (req1 req2 : TwilioVoiceRequest) :
    twilioVoiceHandler publicUrl req1 = twilioVoiceHandler publicUrl req2 := rfl

/-- C8: with a nonempty shared secret configured, `validateTwilioRequest`
accepts exactly when the supplied signature header equals the HMAC of the
shared secret over the exact public callback URL concatenated with the
form parameters sorted by key, each rendered as the key immediately
followed by its value; the comparison itself is the constant-time
`timingSafeEqual` (which throws, hence rejects, on differing lengths). -/
theorem validate_twilio_request_hmac_iff
    (hmacSha1B64 : String → String → String) (t publicUrl : String)
    (signatureHeader : Option String) (params : List (String × String))
    (ht : t ≠ "") :
    (validateTwilioRequest hmacSha1B64 (some t) publicUrl signatureHeader params
        = .ok true
      ↔ signatureHeader.getD "" =
          hmacSha1B64 t ((publicUrl ++ "/twilio/voice")
            ++ String.join ((sortedKeys params).map
                (fun k => k ++ ((params.lookup k).getD ""))))) := by
  show (validateTwilioRequest hmacSha1B64 (some t) publicUrl signatureHeader params
        = .ok true
      ↔ signatureHeader.getD "" = hmacSha1B64 t (twilioSigData publicUrl params))
  simp only [validateTwilioRequest, ht, if_neg ht, timingSafeEqualStr]
  by_cases hl : (signatureHeader.getD "").length =
      (hmacSha1B64 t (twilioSigData publicUrl params)).length
  · simp [hl]
  · simp only [hl, if_false, if_neg hl]
    constructor
    · intro h
      exact absurd h (by simp)
    · intro h
      rw [h] at hl
      exact absurd rfl hl

/-- A concrete stand-in for the HMAC primitive, used only to instantiate
the validation theorems. -/
def demoHmac : String → String → String :=
  fun t d => "MAC[" ++ t ++ "|" ++ d ++ "]"

/-- Concrete webhook form parameters. -/
def demoParams : List (String × String) :=
  [("From", "+15550100"), ("CallSid", "CA123")]

/-- Witness for `validate_twilio_request_hmac_iff`: a request carrying
exactly the computed HMAC is accepted. -/
theorem validate_twilio_request_hmac_iff_witness :
    validateTwilioRequest demoHmac (some "tok") "https://example.com"
      (some (demoHmac "tok" (twilioSigData "https://example.com" demoParams)))
      demoParams = .ok true :=
  (validate_twilio_request_hmac_iff demoHmac "tok" "https://example.com"
    (some (demoHmac "tok" (twilioSigData "https://example.com" demoParams)))
    demoParams (by decide)).mpr rfl

/-- C6: for a configured public callback URL of the form `http://host` or
`https://host` (host free of `<` and `>`), every `POST /twilio/voice`
response is a balanced XML document that contains a `<Stream>` element
whose `url` attribute is exactly the stream URL; that URL has scheme `ws`
(resp. `wss`), the same host as the public callback URL, and exactly the
fixed media-stream path `/twilio/stream`. -/
theorem twilio_voice_twiml_stream_url (h purl : String)
    (hp : purl = "http://" ++ h ∨ purl = "https://" ++ h)
    (hlt : '<' ∉ h.data) (hgt : '>' ∉ h.data) :
    xmlBalanced (twilioVoiceHandler purl ⟨none, []⟩).body = true
    ∧ (∃ pre post, (twilioVoiceHandler purl ⟨none, []⟩).body =
        pre ++ ("<Stream url=\"" ++ wsUrl purl ++ "\" />") ++ post)
    ∧ (purl = "http://" ++ h → wsUrl purl = "ws://" ++ h ++ "/twilio/stream")
    ∧ (purl = "https://" ++ h → wsUrl purl = "wss://" ++ h ++ "/twilio/stream") := by
  refine ⟨?_, ?_, fun he => by rw [he]; exact wsUrl_http h,
    fun he => by rw [he]; exact wsUrl_https h⟩
  · show xmlBalanced (twimlVoice purl) = true
    rcases hp with he | he <;> rw [he]
    · have hw : twimlVoice ("http://" ++ h)
          = twimlPre ++ ("ws://" ++ h ++ "/twilio/stream") ++ twimlPost := by
        unfold twimlVoice
        rw [wsUrl_http]
      rw [hw]
      exact twiml_xmlBalanced _
        (not_mem_wsUrlData '<' "ws://" h (by decide) hlt (by decide))
        (not_mem_wsUrlData '>' "ws://" h (by decide) hgt (by decide))
    · have hw : twimlVoice ("https://" ++ h)
          = twimlPre ++ ("wss://" ++ h ++ "/twilio/stream") ++ twimlPost := by
        unfold twimlVoice
        rw [wsUrl_https]
      rw [hw]
      exact twiml_xmlBalanced _
        (not_mem_wsUrlData '<' "wss://" h (by decide) hlt (by decide))
        (not_mem_wsUrlData '>' "wss://" h (by decide) hgt (by decide))
  · show ∃ pre post, twimlVoice purl =
        pre ++ ("<Stream url=\"" ++ wsUrl purl ++ "\" />") ++ post
    refine ⟨"<?xml version=\"1.0\" encoding=\"UTF-8\"?>\n    <Response>\n      <Say>Connecting you to the assistant.</Say>\n      <Start>\n        ",
      "\n      </Start>\n      <Pause length=\"60\" />\n    </Response>", ?_⟩
    have h1 : twimlPre =
        "<?xml version=\"1.0\" encoding=\"UTF-8\"?>\n    <Response>\n      <Say>Connecting you to the assistant.</Say>\n      <Start>\n        "
          ++ "<Stream url=\"" := by decide
    have h2 : twimlPost = "\" />"
        ++ "\n      </Start>\n      <Pause length=\"60\" />\n    </Response>" := by
      decide
    show twimlPre ++ wsUrl purl ++ twimlPost = _
    rw [h1, h2]
    simp [String.append_assoc]
    conv_rhs => rw [← String.append_assoc]
    congr 1

/-- Witness for `twilio_voice_twiml_stream_url` at the concrete public
URL `https://example.com`. -/
theorem twilio_voice_twiml_stream_url_witness :
    xmlBalanced (twilioVoiceHandler "https://example.com" ⟨none, []⟩).body = true
    ∧ wsUrl "https://example.com" = "wss://example.com/twilio/stream" := by
  have T := twilio_voice_twiml_stream_url "example.com" "https://example.com"
    (Or.inr rfl) (by decide) (by decide)
  exact ⟨T.1, T.2.2.2 rfl⟩

/-! ## Guidance generation: determinism, freshness and coverage -/

/-- Strings: a factor of `s` is still a factor after prepending. -/
theorem factor_append_left (a s t : String)
    (h : ∃ pre post, s = pre ++ t ++ post) :
    ∃ pre post, a ++ s = pre ++ t ++ post := by
  obtain ⟨pre, post, hp⟩ := h
  exact ⟨a ++ pre, post, by rw [hp]; simp [String.append_assoc]⟩

/-- Strings: a factor of `s` is still a factor after appending. -/
theorem factor_append_right (s b t : String)
    (h : ∃ pre post, s = pre ++ t ++ post) :
    ∃ pre post, s ++ b = pre ++ t ++ post := by
  obtain ⟨pre, post, hp⟩ := h
  exact ⟨pre, post ++ b, by rw [hp]; simp [String.append_assoc]⟩

/-- Every string is a factor of itself. -/
theorem factor_self (t : String) : ∃ pre post, t = pre ++ t ++ post :=
  ⟨"", "", by simp⟩

/-- The block of the `j`-th stage is a factor of the stage section. -/
theorem stagesText_contains (l : List Stage) :
    ∀ (idx j : Nat) (hj : j < l.length),
    ∃ pre post,
      stagesText idx l = pre ++ stageBlock (idx + j) (l.get ⟨j, hj⟩) ++ post := by
  induction l with
  | nil =>
    intro idx j hj
    exact absurd hj (by simp)
  | cons st rest ih =>
    intro idx j hj
    cases j with
    | zero =>
      exact ⟨"", stagesText (idx + 1) rest, by
        simp [stagesText, String.append_assoc]⟩
    | succ j' =>
      have hj' : j' < rest.length := by simpa using hj
      obtain ⟨pre, post, hp⟩ := ih (idx + 1) j' hj'
      have hidx : idx + (j' + 1) = (idx + 1) + j' := by omega
      refine ⟨stageBlock idx st ++ pre, post, ?_⟩
      show stageBlock idx st ++ stagesText (idx + 1) rest = _
      rw [hp, hidx]
      simp [String.append_assoc, List.get_cons_succ]

/-- Inversion of a successful `scriptLoadTool` call: the returned
instructions are exactly the ones generated from the descriptor fetched
on that call. -/
theorem scriptLoadTool_ok_inv (catalogFetch : String → FetchResult Script)
    (name : String) (s : Script) (g : String)
    (h : scriptLoadTool catalogFetch name = .ok (s, g)) :
    g = generateScriptInstructions s := by
  unfold scriptLoadTool at h
  cases hf : catalogFetch name with
  | failure st b =>
    rw [hf] at h
    exact absurd h (by simp)
  | success sc =>
    rw [hf] at h
    simp only [Except.ok.injEq, Prod.mk.injEq] at h
    rw [← h.2, ← h.1]

/-- C7: for successful `get_script_info` calls, the guidance block is a
deterministic function of the fetched descriptor alone (equal descriptors
on two calls yield identical guidance), it is regenerated on every call
from the descriptor fetched on that call (never cached), and it covers
every stage block (index, name, prompt, optional question/action lines)
as well as the optional output-format and interactive-element notes. -/
theorem get_script_info_guidance_deterministic
    (fetch1 fetch2 : String → FetchResult Script) (name1 name2 : String)
    (s1 s2 : Script) (g1 g2 : String)
    (h1 : scriptLoadTool fetch1 name1 = .ok (s1, g1))
    (h2 : scriptLoadTool fetch2 name2 = .ok (s2, g2)) :
    g1 = generateScriptInstructions s1
    ∧ g2 = generateScriptInstructions s2
    ∧ (s1 = s2 → g1 = g2)
    ∧ (∀ j (hj : j < s1.stages.length),
        ∃ pre post, g1 = pre ++ stageBlock j (s1.stages.get ⟨j, hj⟩) ++ post)
    ∧ (jsTruthyStr s1.output_format = true →
        ∃ pre post, g1 = pre
          ++ ("\n### 📄 OUTPUT FORMAT: " ++ (s1.output_format.getD "") ++ "\n")
          ++ post)
    ∧ (jsTruthyList s1.interactive_elements = true →
        ∃ pre post, g1 = pre
          ++ ("\n### 🎮 INTERACTIVE ELEMENTS: "
              ++ String.intercalate ", " ((s1.interactive_elements).getD []) ++ "\n")
          ++ post) := by
  have e1 := scriptLoadTool_ok_inv fetch1 name1 s1 g1 h1
  have e2 := scriptLoadTool_ok_inv fetch2 name2 s2 g2 h2
  subst e1
  subst e2
  refine ⟨rfl, rfl, fun h => by rw [h], ?_, ?_, ?_⟩
  · intro j hj
    have hc := stagesText_contains s1.stages 0 j hj
    simp only [Nat.zero_add] at hc
    unfold generateScriptInstructions
    exact factor_append_right _ _ _ (factor_append_right _ _ _
      (factor_append_right _ _ _ (factor_append_left _ _ _ hc)))
  · intro hout
    unfold generateScriptInstructions
    refine factor_append_right _ _ _ (factor_append_right _ _ _
      (factor_append_left _ _ _ ?_))
    rw [if_pos hout]
    exact factor_self _
  · intro hint
    unfold generateScriptInstructions
    refine factor_append_right _ _ _ (factor_append_left _ _ _ ?_)
    rw [if_pos hint]
    exact factor_self _

/-- A concrete stage used to instantiate the guidance theorems. -/
def demoStage : Stage :=
  ⟨"opening", "Set the scene together", some ["Where are we?"], some ["save_note"]⟩

/-- A concrete script descriptor. -/
def demoScript : Script :=
  ⟨"improv_game", "Collaborative storytelling, one sentence at a time",
    [demoStage, ⟨"build", "Continue with yes-and", none, none⟩],
    some "markdown", some ["one sentence each"]⟩

/-- A catalog accessor that returns `demoScript` for every name. -/
def catalogDemo : String → FetchResult Script :=
  fun _ => .success demoScript

/-- Witness for `get_script_info_guidance_deterministic`: stage-0 and
output-format coverage at a concrete successful call. -/
theorem get_script_info_guidance_deterministic_witness :
    (∃ pre post, generateScriptInstructions demoScript =
      pre ++ stageBlock 0 demoStage ++ post)
    ∧ (∃ pre post, generateScriptInstructions demoScript =
      pre ++ ("\n### 📄 OUTPUT FORMAT: "
        ++ (demoScript.output_format.getD "") ++ "\n") ++ post) := by
  have T := get_script_info_guidance_deterministic catalogDemo catalogDemo
    "improv_game" "improv_game" demoScript demoScript
    (generateScriptInstructions demoScript)
    (generateScriptInstructions demoScript) rfl rfl
  exact ⟨T.2.2.2.1 0 (by decide), T.2.2.2.2.1 rfl⟩

/-- C10: when `TWILIO_AUTH_TOKEN` is unset or empty, signature validation
is skipped entirely: `validateTwilioRequest` returns `true` for every
request, whatever the signature header and parameters. -/
theorem validate_twilio_request_skips_when_token_unset
    (hmacSha1B64 : String → String → String) (token : Option String)
    (publicUrl : String) (signatureHeader : Option String)
    (params : List (String × String))
    (htok : token = none ∨ token = some "") :
    validateTwilioRequest hmacSha1B64 token publicUrl signatureHeader params
      = .ok true := by
  rcases htok with h | h <;> subst h <;> simp [validateTwilioRequest]

/-- Witness for `validate_twilio_request_skips_when_token_unset` in both
skip configurations, with an arbitrary (even wrong) signature header. -/
theorem validate_twilio_request_skips_when_token_unset_witness :
    validateTwilioRequest demoHmac none "https://example.com"
        (some "wrong") demoParams = .ok true
    ∧ validateTwilioRequest demoHmac (some "") "https://example.com"
        (some "wrong") demoParams = .ok true :=
  ⟨validate_twilio_request_skips_when_token_unset demoHmac none
      "https://example.com" (some "wrong") demoParams (Or.inl rfl),
   validate_twilio_request_skips_when_token_unset demoHmac (some "")
      "https://example.com" (some "wrong") demoParams (Or.inr rfl)⟩
